import Mathlib

/-!
Verification of the marshalling layer of PyPartMC (`src/aero_mode.hpp`,
`src/pypartmc.cpp`): a shallow embedding of the JSON validation, the
type-discriminator dispatch, the dimension checks guarding the foreign
fill calls, and the foreign-handle lifetime discipline, together with
theorems settling the specification claims about them.
-/

namespace PyPartMC

/-- A JSON document, mirroring the subset of `nlohmann::json` the binding
layer inspects: null, booleans, numbers, strings, arrays and objects.
Numbers are modelled as rationals; the wrapper performs no arithmetic on
them, it only stores and forwards them. -/
inductive Json where
  | null : Json
  | bool (b : Bool) : Json
  | num (v : ℚ) : Json
  | str (s : String) : Json
  | arr (xs : List Json) : Json
  | obj (kvs : List (String × Json)) : Json

/-- `nlohmann::json::size()`: 0 for null, the entry count for objects, the
element count for arrays, and 1 for every other scalar. -/
def jsize : Json → Nat
  | .null => 0
  | .arr xs => xs.length
  | .obj kvs => kvs.length
  | _ => 1

/-- `nlohmann::json::is_object()`. -/
def jIsObj : Json → Bool
  | .obj _ => true
  | _ => false

/-- `nlohmann::json::is_array()`. -/
def jIsArr : Json → Bool
  | .arr _ => true
  | _ => false

/-- `json.find(key)` followed by the `== end()` test: key lookup that
yields `none` on a missing key and on any non-object (on non-objects
`find` returns `end()`). -/
def jfind : Json → String → Option Json
  | .obj kvs, k => (kvs.find? (fun kv => kv.1 = k)).map (fun kv => kv.2)
  | _, _ => none

/-- `json[key]` on an object known to hold `key` (the binding only uses it
after a presence check); defaults to null when absent. -/
def jget (j : Json) (k : String) : Json :=
  (jfind j k).getD Json.null

/-- `json.begin().value()`: the first value of an object (the binding only
evaluates it, by short-circuit, on single-entry objects); totalised with
null elsewhere. -/
def firstVal : Json → Json
  | .obj ((_, v) :: _) => v
  | .arr (x :: _) => x
  | _ => Json.null

/-- `json == "some string"`: `nlohmann` equality against a C string, true
exactly when the value is that string. -/
def jIsStrEq (j : Json) (s : String) : Bool :=
  match j with
  | .str t => t = s
  | _ => false

/-- The C++ exception kinds thrown by the wrapper: `std::runtime_error`
for schema violations, `std::invalid_argument` from `set_type`,
`std::logic_error` from `get_type`, and `nlohmann`'s `type_error` (e.g.
integer `operator[]` applied to a JSON object). -/
inductive ModeErr where
  | runtimeError (msg : String) : ModeErr
  | invalidArgument (msg : String) : ModeErr
  | logicError (msg : String) : ModeErr
  | typeError (msg : String) : ModeErr
deriving DecidableEq, Repr

/-- `json[i]` with an integer index, as `check_mode_json` uses it:
well-defined on arrays, a `type_error` on objects and other non-arrays
(`nlohmann` throws `type_error.305` there).  Uses in the source are
short-circuit-guarded by a size check, so the out-of-range default is
never reached. -/
def jidx : Json → Nat → Except ModeErr Json
  | .arr xs, i => .ok (xs.getD i Json.null)
  | _, _ => .error (.typeError "cannot use operator[] with a numeric argument")

/-- The missing-required-key message of `AeroMode::check_mode_json`. -/
def missingKeyMsg (key : String) : String :=
  "mode parameters dict must include key \x27" ++ key ++ "\x27"

/-- The malformed-`size_dist` message of `AeroMode::check_mode_json`. -/
def sizeDistShapeMsg : String :=
  "size_dist value must be an iterable of two single-element dicts (first with \x27diam\x27, second with \x27num_conc\x27 as keys)"

/-- The `size_dist` length-relation message of `AeroMode::check_mode_json`. -/
def sizeDistLenMsg : String :=
  "size_dist[\x27num_conc\x27] must have len(size_dist[\x27diam\x27])-1 elements"

/-- The keys of a JSON object (empty for non-objects). -/
def objKeys : Json → List String
  | .obj kvs => kvs.map (fun kv => kv.1)
  | _ => []

/-- No string occurs twice in the list. -/
def allDistinct : List String → Bool
  | [] => true
  | k :: rest => !rest.contains k && allDistinct rest

/-- Modelled from the spec: `InputJSONResource::unique_keys` is declared in
`pmc_resource.hpp`, which is not among the sources; per the spec,
composition-fraction entries, each a single-key mapping, must have
pairwise-distinct keys across the list.  Collects every key of every
element mapping and checks that no key repeats; non-arrays are vacuously
unique (`check_mode_json` rejects a non-array `mass_frac` first anyway). -/
def unique_keys (j : Json) : Bool :=
  match j with
  | .arr xs => allDistinct (xs.flatMap objKeys)
  | _ => true

/-- `AeroMode::check_mode_json` (aero_mode.hpp lines 153-181): required
keys `mass_frac` and `mode_type` (checked in `std::set` order, so
`mass_frac` first), `mass_frac` must be an array with unique keys, and a
`"sampled"` mode must carry a well-shaped `size_dist` whose `diam` edge
list is one longer than its `num_conc` list. -/
def check_mode_json (mode : Json) : Except ModeErr Unit :=
  if (jfind mode "mass_frac").isNone then
    .error (.runtimeError (missingKeyMsg "mass_frac"))
  else if (jfind mode "mode_type").isNone then
    .error (.runtimeError (missingKeyMsg "mode_type"))
  else if !(jIsArr (jget mode "mass_frac")) then
    .error (.runtimeError "mass_frac value must be a list of single-element dicts")
  else if !(unique_keys (jget mode "mass_frac")) then
    .error (.runtimeError "mass_frac keys must be unique")
  else if jIsStrEq (jget mode "mode_type") "sampled" then
    if (jfind mode "size_dist").isNone then
      .error (.runtimeError "size_dist key must be set for mode_type=sampled")
    else if jsize (jget mode "size_dist") ≠ 2 then
      .error (.runtimeError sizeDistShapeMsg)
    else
      match jidx (jget mode "size_dist") 0 with
      | .error e => .error e
      | .ok sd0 =>
        if !(jIsObj sd0) then .error (.runtimeError sizeDistShapeMsg)
        else if jsize sd0 ≠ 1 then .error (.runtimeError sizeDistShapeMsg)
        else
          match jidx (jget mode "size_dist") 1 with
          | .error e => .error e
          | .ok sd1 =>
            if jsize sd1 ≠ 1 then .error (.runtimeError sizeDistShapeMsg)
            else if (jfind sd0 "diam").isNone then .error (.runtimeError sizeDistShapeMsg)
            else if (jfind sd1 "num_conc").isNone then .error (.runtimeError sizeDistShapeMsg)
            else if jsize (jget sd0 "diam") ≠ jsize (jget sd1 "num_conc") + 1 then
              .error (.runtimeError sizeDistLenMsg)
            else .ok ()
  else .ok ()

/-- The foreign (`extern "C"`, Fortran-implemented) entry points the
`AeroMode` wrapper can invoke, recorded as trace events.  The fill-style
calls carry the element count the wrapper passes across the boundary. -/
inductive FCall where
  | modeCtor : FCall
  | modeDtor : FCall
  | fromJson : FCall
  | getNSpec : FCall
  | fillVolFrac (len : Nat) : FCall
  | fillVolFracStd (len : Nat) : FCall
  | fillSampled (len : Nat) : FCall
deriving DecidableEq, Repr

/-- The JSON-taking `AeroMode` constructor (aero_mode.hpp lines 142-151),
returning the construction outcome together with the trace of foreign
calls made.  The member initializer `ptr(f_aero_mode_ctor,
f_aero_mode_dtor)` runs before the constructor body, and the
`PMCResource` handle — modelled from the spec, `pmc_resource.hpp` not
being among the sources — invokes the foreign constructor on acquisition,
so `modeCtor` heads every trace; when the body throws, C++ unwinding
destroys the already-constructed member, so the foreign destructor runs
and the trace ends in `modeDtor`.  On successful validation the wrapper
calls `f_aero_mode_from_json`.  (The post-construction consumed-key check
of `JSONResourceGuard` is outside the scope of the claims settled here.) -/
def aeroModeNew (doc : Json) : Except ModeErr Unit × List FCall :=
  if jsize doc ≠ 1 || !(jIsObj doc) || !(jIsObj (firstVal doc)) then
    (.error (.runtimeError
        "Single-element dict expected with mode name as key and mode params dict as value"),
      [.modeCtor, .modeDtor])
  else
    match check_mode_json (firstVal doc) with
    | .error e => (.error e, [.modeCtor, .modeDtor])
    | .ok _ => (.ok (), [.modeCtor, .fromJson])

/-- `AeroMode::set_vol_frac` (aero_mode.hpp lines 211-223): queries the
foreign species count, rejects a length mismatch in the wrapper, and only
on agreement calls the foreign fill `f_aero_mode_set_vol_frac` with the
array and its length.  `n_spec` is the count the foreign
`f_aero_mode_get_n_spec` reports; the trace of foreign calls is returned
alongside the outcome. -/
def set_vol_frac (n_spec : Nat) (data : List ℚ) : Except ModeErr Unit × List FCall :=
  if data.length ≠ n_spec then
    (.error (.runtimeError "AeroData size mismatch"), [.getNSpec])
  else
    (.ok (), [.getNSpec, .fillVolFrac data.length])

/-- `AeroMode::set_vol_frac_std` (aero_mode.hpp lines 234-246): identical
guard, filling via `f_aero_mode_set_vol_frac_std`. -/
def set_vol_frac_std (n_spec : Nat) (data : List ℚ) : Except ModeErr Unit × List FCall :=
  if data.length ≠ n_spec then
    (.error (.runtimeError "AeroData size mismatch"), [.getNSpec])
  else
    (.ok (), [.getNSpec, .fillVolFracStd data.length])

/-- `AeroMode::set_sampled` (aero_mode.hpp lines 277-293): requires the
diameter edge list to be one element longer than the number-concentration
list, then calls the foreign `f_aero_mode_set_sampled` with the diameter
count. -/
def set_sampled (sample_diams sample_num_conc : List ℚ) :
    Except ModeErr Unit × List FCall :=
  if sample_diams.length ≠ sample_num_conc.length + 1 then
    (.error (.runtimeError "Diameter and number size mismatch"), [])
  else
    (.ok (), [.fillSampled sample_diams.length])

/-- `AeroMode::types()` (aero_mode.hpp lines 295-303): the closed, ordered
variant set of mode types. -/
def types : List String := ["log_normal", "exp", "mono", "sampled"]

/-- The search loop of `AeroMode::set_type`: walks the variant list with a
counter pre-incremented before each comparison, stopping at the first
match; returns the final counter value and whether a match was found. -/
def findType : List String → Nat → String → Nat × Bool
  | [], t, _ => (t, false)
  | el :: rest, t, name => if el = name then (t + 1, true) else findType rest (t + 1) name

/-- `AeroMode::set_type` (aero_mode.hpp lines 305-321): maps a variant
name to its 1-based code and passes it to the foreign
`f_aero_mode_set_type`; an unknown name raises `std::invalid_argument`.
The returned code is the integer handed across the boundary. -/
def set_type (mode_type : String) : Except ModeErr Nat :=
  let r := findType types 0 mode_type
  if !r.2 then .error (.invalidArgument "Invalid mode type.")
  else .ok r.1

/-- `AeroMode::get_type` (aero_mode.hpp lines 323-331): reads the code the
foreign `f_aero_mode_get_type` reports; a code outside `1..types.size()`
raises `std::logic_error`, otherwise the 1-based code indexes the variant
list.  `code` is the integer the foreign side reports. -/
def get_type (code : Int) : Except ModeErr String :=
  if code ≤ 0 ∨ (types.length : Int) < code then
    .error (.logicError "Unknown mode type.")
  else .ok (types.getD (code.toNat - 1) "")

/-- Modelled from the spec: `PMCResource` (the ForeignHandle) lives in
`pmc_resource.hpp`, which is not among the sources.  Per the spec,
`acquire` calls the foreign constructor exactly once, and `release` calls
the foreign destructor idempotently, guarded by a consumed flag, so
end-of-life teardown after an explicit release is a no-op.  `dtorCalls`
counts foreign-destructor invocations (the call-count stub of the spec's
testable property 7). -/
structure PMCResource where
  released : Bool
  dtorCalls : Nat

/-- ForeignHandle acquisition: the foreign constructor has run, the
destructor has not. -/
def PMCResource.acquire : PMCResource :=
  { released := false, dtorCalls := 0 }

/-- ForeignHandle release (also the end-of-life teardown on every exit
path): invokes the foreign destructor only if it has not run yet. -/
def PMCResource.release (r : PMCResource) : PMCResource :=
  if r.released then r
  else { released := true, dtorCalls := r.dtorCalls + 1 }

/-- The scalar attributes of the foreign `aero_mode_t` that the wrapper
reads and writes through paired get/set entry points.  The foreign side
is modelled, per the spec's round-trip property, as storing each value
unchanged. -/
structure AeroModeState where
  num_conc : ℚ
  char_radius : ℚ
  gsd : ℚ

/-- `AeroMode::set_num_conc` / `f_aero_mode_set_num_conc`. -/
def set_num_conc (s : AeroModeState) (val : ℚ) : AeroModeState :=
  { s with num_conc := val }

/-- `AeroMode::get_num_conc` / `f_aero_mode_get_num_conc`. -/
def get_num_conc (s : AeroModeState) : ℚ := s.num_conc

/-- `AeroMode::set_char_radius` / `f_aero_mode_set_char_radius`. -/
def set_char_radius (s : AeroModeState) (val : ℚ) : AeroModeState :=
  { s with char_radius := val }

/-- `AeroMode::get_char_radius` / `f_aero_mode_get_char_radius`. -/
def get_char_radius (s : AeroModeState) : ℚ := s.char_radius

/-- `AeroMode::set_gsd` / `f_aero_mode_set_gsd`. -/
def set_gsd (s : AeroModeState) (val : ℚ) : AeroModeState :=
  { s with gsd := val }

/-- `AeroMode::get_gsd` / `f_aero_mode_get_gsd`. -/
def get_gsd (s : AeroModeState) : ℚ := s.gsd

/-- The sampled-distribution data the foreign side holds: the bin count
`f_aero_mode_get_sample_bins` reports, and the buffer-filling behaviour
of `f_aero_mode_get_sample_radius` / `f_aero_mode_get_sample_num_conc`,
modelled as the value each writes at a given buffer position. -/
structure SampleDist where
  n_bins : Nat
  radius_at : Nat → ℚ
  num_conc_at : Nat → ℚ

/-- `AeroMode::get_sample_radius` (aero_mode.hpp lines 349-360): queries
the bin count, increments it by one, allocates a buffer of that length
and has the foreign side fill it. -/
def get_sample_radius (s : SampleDist) : List ℚ :=
  (List.range (s.n_bins + 1)).map s.radius_at

/-- `AeroMode::get_sample_num_conc` (aero_mode.hpp lines 362-372): queries
the bin count, allocates a buffer of exactly that length and has the
foreign side fill it. -/
def get_sample_num_conc (s : SampleDist) : List ℚ :=
  (List.range s.n_bins).map s.num_conc_at

/-- The well-shaped `size_dist` of a `"sampled"` mode, as the claims state
it: a two-element sequence of single-key mappings, the first keyed
`diam`, the second keyed `num_conc`, with one more diameter edge than
number-concentration bins. -/
def sampledShapeOK (mode : Json) : Prop :=
  ∃ sd0 sd1, jfind mode "size_dist" = some (Json.arr [sd0, sd1]) ∧
    jIsObj sd0 = true ∧ jsize sd0 = 1 ∧
    jIsObj sd1 = true ∧ jsize sd1 = 1 ∧
    (jfind sd0 "diam").isSome = true ∧ (jfind sd1 "num_conc").isSome = true ∧
    jsize (jget sd0 "diam") = jsize (jget sd1 "num_conc") + 1

/-- The inner parameter mapping of a well-formed `"sampled"` mode:
`diam=[1,2,3]`, `num_conc=[10,20]` (the spec's passing example). -/
def goodSampledInner : Json :=
  Json.obj [
    ("mass_frac", Json.arr [Json.obj [("SO4", Json.num 1)]]),
    ("mode_type", Json.str "sampled"),
    ("size_dist", Json.arr [
      Json.obj [("diam", Json.arr [Json.num 1, Json.num 2, Json.num 3])],
      Json.obj [("num_conc", Json.arr [Json.num 10, Json.num 20])]])]

/-- A full single-entry mode document wrapping `goodSampledInner`. -/
def goodSampledDoc : Json :=
  Json.obj [("test_mode", goodSampledInner)]

/-- A mode document whose `mass_frac` list repeats the species key `SO4`. -/
def dupModeDoc : Json :=
  Json.obj [("test_mode", Json.obj [
    ("mass_frac", Json.arr [Json.obj [("SO4", Json.num 1)], Json.obj [("SO4", Json.num 2)]]),
    ("mode_type", Json.str "mono")])]

/-! ## Helper lemmas -/

theorem jfind_eq_some_jget (m : Json) (k : String)
    (h : ¬ (jfind m k).isNone = true) : jfind m k = some (jget m k) := by
  cases hf : jfind m k with
  | none => exact absurd (by rw [hf]; rfl) h
  | some v => simp [jget, hf]

theorem jIsObj_of_jfind_not_none (j : Json) (k : String)
    (h : ¬ (jfind j k).isNone = true) : jIsObj j = true := by
  cases j <;> simp [jfind, jIsObj] at h ⊢

theorem check_mode_json_ok_shape (mode : Json)
    (hs : jIsStrEq (jget mode "mode_type") "sampled" = true)
    (hok : check_mode_json mode = Except.ok ()) : sampledShapeOK mode := by
  unfold check_mode_json at hok
  by_cases h1 : (jfind mode "mass_frac").isNone = true
  · rw [if_pos h1] at hok; exact absurd hok (by simp)
  rw [if_neg h1] at hok
  by_cases h2 : (jfind mode "mode_type").isNone = true
  · rw [if_pos h2] at hok; exact absurd hok (by simp)
  rw [if_neg h2] at hok
  by_cases h3 : (!(jIsArr (jget mode "mass_frac"))) = true
  · rw [if_pos h3] at hok; exact absurd hok (by simp)
  rw [if_neg h3] at hok
  by_cases h4 : (!(unique_keys (jget mode "mass_frac"))) = true
  · rw [if_pos h4] at hok; exact absurd hok (by simp)
  rw [if_neg h4, if_pos hs] at hok
  by_cases h6 : (jfind mode "size_dist").isNone = true
  · rw [if_pos h6] at hok; exact absurd hok (by simp)
  rw [if_neg h6] at hok
  by_cases h7 : jsize (jget mode "size_dist") ≠ 2
  · rw [if_pos h7] at hok; exact absurd hok (by simp)
  rw [if_neg h7] at hok
  cases heq0 : jidx (jget mode "size_dist") 0 with
  | error e => rw [heq0] at hok; exact absurd hok (by simp)
  | ok sd0 =>
  simp only [heq0] at hok
  by_cases h8 : (!(jIsObj sd0)) = true
  · rw [if_pos h8] at hok; exact absurd hok (by simp)
  rw [if_neg h8] at hok
  by_cases h9 : jsize sd0 ≠ 1
  · rw [if_pos h9] at hok; exact absurd hok (by simp)
  rw [if_neg h9] at hok
  cases heq1 : jidx (jget mode "size_dist") 1 with
  | error e => rw [heq1] at hok; exact absurd hok (by simp)
  | ok sd1 =>
  simp only [heq1] at hok
  by_cases h10 : jsize sd1 ≠ 1
  · rw [if_pos h10] at hok; exact absurd hok (by simp)
  rw [if_neg h10] at hok
  by_cases h11 : (jfind sd0 "diam").isNone = true
  · rw [if_pos h11] at hok; exact absurd hok (by simp)
  rw [if_neg h11] at hok
  by_cases h12 : (jfind sd1 "num_conc").isNone = true
  · rw [if_pos h12] at hok; exact absurd hok (by simp)
  rw [if_neg h12] at hok
  by_cases h13 : jsize (jget sd0 "diam") ≠ jsize (jget sd1 "num_conc") + 1
  · rw [if_pos h13] at hok; exact absurd hok (by simp)
  cases hjg : jget mode "size_dist" with
  | arr xs =>
    rw [hjg] at heq0 heq1 h7
    simp [jidx] at heq0 heq1
    simp [jsize] at h7
    match xs, h7 with
    | [a, b], _ =>
      simp [List.getD] at heq0 heq1
      subst heq0
      subst heq1
      refine ⟨a, b, ?_, ?_, ?_, ?_, ?_, ?_, ?_, ?_⟩
      · rw [← hjg]
        exact jfind_eq_some_jget mode "size_dist" h6
      · simpa using h8
      · omega
      · exact jIsObj_of_jfind_not_none b "num_conc" h12
      · omega
      · simpa [Option.isSome_iff_ne_none] using h11
      · simpa [Option.isSome_iff_ne_none] using h12
      · omega
  | null => rw [hjg] at heq0; simp [jidx] at heq0
  | bool b => rw [hjg] at heq0; simp [jidx] at heq0
  | num v => rw [hjg] at heq0; simp [jidx] at heq0
  | str s => rw [hjg] at heq0; simp [jidx] at heq0
  | obj kvs => rw [hjg] at heq0; simp [jidx] at heq0

theorem findType_not_mem : ∀ (l : List String) (t : Nat) (name : String),
    name ∉ l → (findType l t name).2 = false := by
  intro l
  induction l with
  | nil => intro t name _; rfl
  | cons x xs ih =>
    intro t name h
    have hx : ¬ x = name := fun he => h (by rw [← he]; exact List.mem_cons_self x xs)
    rw [findType, if_neg hx]
    exact ih (t + 1) name (fun hm => h (List.mem_cons_of_mem x hm))

theorem unique_keys_false_arr (j : Json) (h : unique_keys j = false) :
    jIsArr j = true := by
  cases j <;> simp [unique_keys, jIsArr] at h ⊢

theorem check_mode_json_dup_error (mode : Json)
    (hdup : unique_keys (jget mode "mass_frac") = false) :
    ∃ msg, check_mode_json mode = Except.error (ModeErr.runtimeError msg) := by
  have harr : jIsArr (jget mode "mass_frac") = true :=
    unique_keys_false_arr _ hdup
  have h1 : ¬ (jfind mode "mass_frac").isNone = true := by
    cases hf : jfind mode "mass_frac" with
    | none =>
      intro _
      rw [jget, hf] at harr
      simp [jIsArr] at harr
    | some v => simp
  by_cases h2 : (jfind mode "mode_type").isNone = true
  · refine ⟨missingKeyMsg "mode_type", ?_⟩
    unfold check_mode_json
    rw [if_neg h1, if_pos h2]
  · refine ⟨"mass_frac keys must be unique", ?_⟩
    unfold check_mode_json
    rw [if_neg h1, if_neg h2, if_neg (by simp [harr]), if_pos (by simp [hdup])]

theorem release_iterate (n : Nat) :
    PMCResource.release^[n + 1] PMCResource.acquire =
      { released := true, dtorCalls := 1 } := by
  induction n with
  | zero => rfl
  | succ m ih => rw [Function.iterate_succ_apply', ih]; rfl

/-! ## Claims -/

/-- C1: for every mode document whose `mode_type` is `"sampled"`,
construction succeeds only if `size_dist` is a two-element sequence of
single-key mappings keyed `diam` and `num_conc` with
`len(diam) = len(num_conc) + 1`, and any violation of that shape or
length relation makes validation raise an error; the same N+1 relation is
required of `set_sampled`, which raises an error when
`len(sample_diams) ≠ len(sample_num_conc) + 1` and calls the foreign fill
exactly when they agree. -/
theorem C1_sampled_size_dist :
    (∀ doc, jIsStrEq (jget (firstVal doc) "mode_type") "sampled" = true →
      (aeroModeNew doc).1 = Except.ok () → sampledShapeOK (firstVal doc))
    ∧ (∀ mode, jIsStrEq (jget mode "mode_type") "sampled" = true →
        ¬ sampledShapeOK mode → ∃ e, check_mode_json mode = Except.error e)
    ∧ (∀ diams nconc : List ℚ, diams.length ≠ nconc.length + 1 →
        (set_sampled diams nconc).1 =
          Except.error (ModeErr.runtimeError "Diameter and number size mismatch"))
    ∧ (∀ diams nconc : List ℚ, diams.length = nconc.length + 1 →
        set_sampled diams nconc = (Except.ok (), [FCall.fillSampled diams.length])) := by
  refine ⟨?_, ?_, ?_, ?_⟩
  · intro doc hs hok
    unfold aeroModeNew at hok
    by_cases hc : (jsize doc ≠ 1 || !(jIsObj doc) || !(jIsObj (firstVal doc))) = true
    · rw [if_pos hc] at hok; exact absurd hok (by simp)
    · rw [if_neg hc] at hok
      cases hch : check_mode_json (firstVal doc) with
      | error e => simp [hch] at hok
      | ok u => cases u; exact check_mode_json_ok_shape _ hs hch
  · intro mode hs hshape
    cases hch : check_mode_json mode with
    | error e => exact ⟨e, rfl⟩
    | ok u => cases u; exact absurd (check_mode_json_ok_shape mode hs hch) hshape
  · intro diams nconc h
    simp [set_sampled, h]
  · intro diams nconc h
    simp [set_sampled, h]

/-- Witness for C1 at the spec's passing example
(`diam=[1,2,3]`, `num_conc=[10,20]`) and its failing example
(`diam=[1,2]`, `num_conc=[10,20]`). -/
theorem C1_sampled_size_dist_witness :
    sampledShapeOK (firstVal goodSampledDoc) ∧
    (set_sampled [1, 2] [10, 20]).1 =
      Except.error (ModeErr.runtimeError "Diameter and number size mismatch") :=
  ⟨C1_sampled_size_dist.1 goodSampledDoc rfl rfl,
   C1_sampled_size_dist.2.2.1 [1, 2] [10, 20] (by decide)⟩

/-- C2 counterexample: at `dupModeDoc` (duplicate `SO4` keys in
`mass_frac`) construction does raise the schema error, but foreign
boundary calls do occur before it is raised: the member-initialized
`PMCResource` invokes the foreign constructor `f_aero_mode_ctor` before
the validation in the constructor body runs, and stack unwinding then
invokes `f_aero_mode_dtor`, so the trace of foreign calls is nonempty,
refuting the claim that the error is raised before any foreign call. -/
theorem C2_counterexample :
    (∃ e, (aeroModeNew dupModeDoc).1 = Except.error e) ∧
    (aeroModeNew dupModeDoc).2 = [FCall.modeCtor, FCall.modeDtor] :=
  ⟨⟨ModeErr.runtimeError "mass_frac keys must be unique", rfl⟩, rfl⟩

/-- C2 amended: for every mode document with duplicate species keys in
`mass_frac`, construction raises a SchemaError before the foreign
from-JSON call (`f_aero_mode_from_json` is never invoked), and no
partially-constructed foreign object is left behind: the only foreign
calls are the handle's paired constructor and destructor, the destructor
running on unwind. -/
theorem C2_no_foreign_object_on_dup (doc : Json)
    (hshape : (jsize doc ≠ 1 || !(jIsObj doc) || !(jIsObj (firstVal doc))) = false)
    (hdup : unique_keys (jget (firstVal doc) "mass_frac") = false) :
    (∃ msg, (aeroModeNew doc).1 = Except.error (ModeErr.runtimeError msg)) ∧
    FCall.fromJson ∉ (aeroModeNew doc).2 ∧
    (aeroModeNew doc).2 = [FCall.modeCtor, FCall.modeDtor] := by
  obtain ⟨msg, hmsg⟩ := check_mode_json_dup_error (firstVal doc) hdup
  have hres : aeroModeNew doc =
      (Except.error (ModeErr.runtimeError msg), [FCall.modeCtor, FCall.modeDtor]) := by
    unfold aeroModeNew
    rw [if_neg (by rw [hshape]; simp), hmsg]
  rw [hres]
  exact ⟨⟨msg, rfl⟩, by simp, rfl⟩

/-- Witness for the amended C2 at `dupModeDoc`. -/
theorem C2_no_foreign_object_on_dup_witness :
    (∃ msg, (aeroModeNew dupModeDoc).1 = Except.error (ModeErr.runtimeError msg)) ∧
    FCall.fromJson ∉ (aeroModeNew dupModeDoc).2 ∧
    (aeroModeNew dupModeDoc).2 = [FCall.modeCtor, FCall.modeDtor] :=
  C2_no_foreign_object_on_dup dupModeDoc rfl rfl

/-- C3: `set_vol_frac` and `set_vol_frac_std` raise a dimension-mismatch
error in the wrapper whenever the supplied array's length differs from
the species count the foreign `f_aero_mode_get_n_spec` reports, and the
foreign fill function is then never called; when the lengths agree the
fill function is called with exactly that length. -/
theorem C3_set_vol_frac_dimension_guard :
    ∀ (n_spec : Nat) (data : List ℚ),
      (data.length ≠ n_spec →
        (set_vol_frac n_spec data).1 =
            Except.error (ModeErr.runtimeError "AeroData size mismatch") ∧
          (∀ m, FCall.fillVolFrac m ∉ (set_vol_frac n_spec data).2) ∧
          (set_vol_frac_std n_spec data).1 =
            Except.error (ModeErr.runtimeError "AeroData size mismatch") ∧
          (∀ m, FCall.fillVolFracStd m ∉ (set_vol_frac_std n_spec data).2)) ∧
      (data.length = n_spec →
        (set_vol_frac n_spec data).2 = [FCall.getNSpec, FCall.fillVolFrac data.length] ∧
        (set_vol_frac_std n_spec data).2 =
          [FCall.getNSpec, FCall.fillVolFracStd data.length]) := by
  intro n data
  constructor
  · intro h
    refine ⟨?_, ?_, ?_, ?_⟩ <;> simp [set_vol_frac, set_vol_frac_std, h]
  · intro h
    constructor <;> simp [set_vol_frac, set_vol_frac_std, h]

/-- Witness for C3: a 3-element array against 2 species errors, against 3
species it reaches the fill call with length 3. -/
theorem C3_set_vol_frac_dimension_guard_witness :
    (set_vol_frac 2 [1, 2, 3]).1 =
      Except.error (ModeErr.runtimeError "AeroData size mismatch") ∧
    (set_vol_frac 3 [1, 2, 3]).2 = [FCall.getNSpec, FCall.fillVolFrac 3] :=
  ⟨((C3_set_vol_frac_dimension_guard 2 [1, 2, 3]).1 (by decide)).1,
   ((C3_set_vol_frac_dimension_guard 3 [1, 2, 3]).2 (by decide)).1⟩

/-- C4: for every name in the known variant set, `set_type` passes a code
across the boundary such that `get_type` of that same code returns the
name (the foreign side storing the code unchanged); any name outside the
set raises an error. -/
theorem C4_set_get_type_roundtrip :
    (∀ name, name ∈ types →
      ∃ c, set_type name = Except.ok c ∧ get_type (c : Int) = Except.ok name) ∧
    (∀ name, name ∉ types →
      set_type name = Except.error (ModeErr.invalidArgument "Invalid mode type.")) := by
  constructor
  · intro name h
    simp [types] at h
    rcases h with h | h | h | h <;> subst h
    · exact ⟨1, rfl, rfl⟩
    · exact ⟨2, rfl, rfl⟩
    · exact ⟨3, rfl, rfl⟩
    · exact ⟨4, rfl, rfl⟩
  · intro name h
    simp [set_type, findType_not_mem types 0 name h]

/-- Witness for C4 at `"mono"` and at the unknown name `"bogus"`. -/
theorem C4_set_get_type_roundtrip_witness :
    (∃ c, set_type "mono" = Except.ok c ∧ get_type (c : Int) = Except.ok "mono") ∧
    set_type "bogus" = Except.error (ModeErr.invalidArgument "Invalid mode type.") :=
  ⟨C4_set_get_type_roundtrip.1 "mono" (by decide),
   C4_set_get_type_roundtrip.2 "bogus" (by decide)⟩

/-- C5: `set_type` with an unknown name raises an invalid-argument error,
`get_type` with a foreign-reported code outside `1..types.length` raises
a logic error of a distinct kind, and `get_type` returns a name without
error exactly when the code is in `1..types.length` (with
`types.length = 4`). -/
theorem C5_variant_error_kinds :
    (∀ name, name ∉ types →
      ∃ m, set_type name = Except.error (ModeErr.invalidArgument m)) ∧
    (∀ code : Int, code < 1 ∨ (types.length : Int) < code →
      ∃ m, get_type code = Except.error (ModeErr.logicError m)) ∧
    (∀ code : Int, 1 ≤ code → code ≤ (types.length : Int) →
      ∃ name, get_type code = Except.ok name) ∧
    (∀ m1 m2, ModeErr.invalidArgument m1 ≠ ModeErr.logicError m2) ∧
    types.length = 4 := by
  refine ⟨?_, ?_, ?_, ?_, rfl⟩
  · intro name h
    exact ⟨"Invalid mode type.", by simp [set_type, findType_not_mem types 0 name h]⟩
  · intro code h
    refine ⟨"Unknown mode type.", ?_⟩
    have hcond : code ≤ 0 ∨ (types.length : Int) < code := by
      rcases h with h | h
      · exact Or.inl (by omega)
      · exact Or.inr h
    unfold get_type
    rw [if_pos hcond]
  · intro code h1 h2
    refine ⟨types.getD (code.toNat - 1) "", ?_⟩
    have hcond : ¬ (code ≤ 0 ∨ (types.length : Int) < code) := by
      rintro (h | h) <;> omega
    unfold get_type
    rw [if_neg hcond]
  · intro m1 m2 h
    exact ModeErr.noConfusion h

/-- Witness for C5 at `"bogus"`, the out-of-range code 7 and the in-range
code 2. -/
theorem C5_variant_error_kinds_witness :
    (∃ m, set_type "bogus" = Except.error (ModeErr.invalidArgument m)) ∧
    (∃ m, get_type 7 = Except.error (ModeErr.logicError m)) ∧
    (∃ name, get_type 2 = Except.ok name) :=
  ⟨C5_variant_error_kinds.1 "bogus" (by decide),
   C5_variant_error_kinds.2.1 7 (by decide),
   C5_variant_error_kinds.2.2.1 2 (by decide) (by decide)⟩

/-- C6: a mode parameter mapping lacking the required key `mass_frac`, or
holding `mass_frac` but lacking `mode_type`, makes `check_mode_json`
raise a SchemaError whose message names the missing key (the message
contains the key verbatim). -/
theorem C6_missing_key_named :
    (∀ mode, jfind mode "mass_frac" = none →
      check_mode_json mode =
        Except.error (ModeErr.runtimeError (missingKeyMsg "mass_frac"))) ∧
    (∀ mode, (jfind mode "mass_frac").isSome = true → jfind mode "mode_type" = none →
      check_mode_json mode =
        Except.error (ModeErr.runtimeError (missingKeyMsg "mode_type"))) ∧
    (∀ key, ∃ pre post, missingKeyMsg key = pre ++ key ++ post) := by
  refine ⟨?_, ?_, ?_⟩
  · intro mode h
    unfold check_mode_json
    rw [if_pos (by rw [h]; rfl)]
  · intro mode h1 h2
    have hn : ¬ (jfind mode "mass_frac").isNone = true := by
      cases hf : jfind mode "mass_frac" with
      | none => rw [hf] at h1; simp at h1
      | some v => simp
    unfold check_mode_json
    rw [if_neg hn, if_pos (by rw [h2]; rfl)]
  · intro key
    exact ⟨"mode parameters dict must include key \x27", "\x27", rfl⟩

/-- Witness for C6: an empty mapping misses `mass_frac`; a mapping with
only `mass_frac` misses `mode_type`. -/
theorem C6_missing_key_named_witness :
    check_mode_json (Json.obj []) =
      Except.error (ModeErr.runtimeError (missingKeyMsg "mass_frac")) ∧
    check_mode_json (Json.obj [("mass_frac", Json.arr [])]) =
      Except.error (ModeErr.runtimeError (missingKeyMsg "mode_type")) :=
  ⟨C6_missing_key_named.1 (Json.obj []) rfl,
   (C6_missing_key_named.2.1 (Json.obj [("mass_frac", Json.arr [])]) rfl rfl)⟩

/-- C7: constructing an AeroMode from JSON requires a single-entry mapping
whose one value is itself a mapping; any input that is not an object, or
whose size is not exactly 1, or whose single value is not an object, is
rejected with the single-element-dict error. -/
theorem C7_single_entry_mapping :
    ∀ doc : Json,
      (jIsObj doc = false ∨ jsize doc ≠ 1 ∨ jIsObj (firstVal doc) = false) →
      (aeroModeNew doc).1 = Except.error (ModeErr.runtimeError
        "Single-element dict expected with mode name as key and mode params dict as value") := by
  intro doc h
  have hc : (jsize doc ≠ 1 || !(jIsObj doc) || !(jIsObj (firstVal doc))) = true := by
    rcases h with h | h | h <;> simp [h]
  unfold aeroModeNew
  rw [if_pos hc]

/-- Witness for C7 at the non-object document `0`. -/
theorem C7_single_entry_mapping_witness :
    (aeroModeNew (Json.num 0)).1 = Except.error (ModeErr.runtimeError
      "Single-element dict expected with mode name as key and mode params dict as value") :=
  C7_single_entry_mapping (Json.num 0) (Or.inl rfl)

/-- C8: over the whole lifetime of a ForeignHandle, the foreign destructor
runs at most once: any number of release/teardown steps after acquisition
leaves the destructor call count at most 1, and exactly 1 once any
release has happened. -/
theorem C8_dtor_at_most_once :
    ∀ n : Nat, (PMCResource.release^[n] PMCResource.acquire).dtorCalls ≤ 1 ∧
      (1 ≤ n → (PMCResource.release^[n] PMCResource.acquire).dtorCalls = 1) := by
  intro n
  cases n with
  | zero =>
    constructor
    · exact Nat.zero_le 1
    · intro h; exact absurd h (by decide)
  | succ m =>
    rw [release_iterate m]
    exact ⟨le_refl 1, fun _ => rfl⟩

/-- Witness for C8: explicit release followed by end-of-life teardown (two
release steps) invokes the destructor exactly once. -/
theorem C8_dtor_at_most_once_witness :
    (PMCResource.release^[2] PMCResource.acquire).dtorCalls = 1 :=
  (C8_dtor_at_most_once 2).2 (by decide)

/-- C9: every scalar attribute with both get and set (`num_conc`,
`char_radius`, `gsd`) round-trips: setting a value and getting it back
returns exactly that value, the foreign side storing it unchanged. -/
theorem C9_scalar_roundtrip :
    ∀ (s : AeroModeState) (x : ℚ),
      get_num_conc (set_num_conc s x) = x ∧
      get_char_radius (set_char_radius s x) = x ∧
      get_gsd (set_gsd s x) = x := by
  intro s x
  exact ⟨rfl, rfl, rfl⟩

/-- C10: the array `get_sample_radius` returns has exactly one more
element than the array `get_sample_num_conc` returns: for a foreign bin
count of `n`, they have `n + 1` and `n` elements respectively. -/
theorem C10_sample_lengths :
    ∀ s : SampleDist,
      (get_sample_num_conc s).length = s.n_bins ∧
      (get_sample_radius s).length = s.n_bins + 1 ∧
      (get_sample_radius s).length = (get_sample_num_conc s).length + 1 := by
  intro s
  simp [get_sample_radius, get_sample_num_conc]

end PyPartMC
